import Mathlib

/-!
Verification development for the OBD2 telemetry acquisition pipeline
(src/OBD2-V2.py, with src/OBD2.py as the earlier variant).

The embedding covers the non-UI core: the per-session time-series store
(`_handle_sample` recording into `data_history`), the CSV durable sink,
the polling worker (`_poll_worker`, one acquisition tick), the controller
(`start_polling`) and the windowed projection inside `refresh_plot`.

Modelling conventions:
* Python floats (timestamps, readings, the interval) are modelled as `ℚ`.
* A Python dict is an insertion-ordered association list with unique keys;
  `dictInsert` replaces in place on an existing key, as `d[k] = v` does.
* A Sample is the dict built by `_poll_worker`: the key "timestamp" plus
  one key per parameter label, each mapped to an optional numeric reading.
* `data_history` is modelled as a total function `String → Series` whose
  default value is the empty series; the source's "create the series on
  first occurrence" step is therefore the identity and is dropped.
* Queue contents are modelled as lists (front = first pushed); UI-only
  state (widgets, combos, canvas) is out of scope and not modelled.
* Log lines are modelled by their message text; the `[HH:MM:SS]` prefix
  added by `log()` and concrete CSV file names are abstracted away, as is
  the calendar rendering of a row's timestamp (kept as the raw number).
* Exceptions raised by the CSV writer and by `connection.query` are
  modelled by explicit outcome parameters (`Option String`,
  `QueryOutcome.err`).
-/

set_option autoImplicit false

namespace OBD2

/-- A reading for one label inside a Sample: `none` is Python's `None`. -/
abbrev Reading := Option ℚ

/-- A Sample is the Python dict `{"timestamp": t, label_1: r_1, ...}`:
an insertion-ordered association list with unique keys. -/
abbrev Sample := List (String × Reading)

/-- Python dict assignment `d[k] = v`: replaces the value in place when the
key exists, otherwise appends the new pair at the end. -/
def dictInsert (k : String) (v : Reading) : Sample → Sample
  | [] => [(k, v)]
  | (k', v') :: rest =>
      if k' = k then (k, v) :: rest else (k', v') :: dictInsert k v rest

/-- Python `d.get(k)`: `none` when the key is absent. -/
def dictGet : Sample → String → Option Reading
  | [], _ => none
  | (k', v') :: rest, k => if k' = k then some v' else dictGet rest k

/-- The keys of a Sample, in insertion order. -/
def dictKeys (s : Sample) : List String := s.map Prod.fst

/-- One label's plotted series: the parallel lists
`data_history[label]["t"]` and `data_history[label]["v"]`. -/
structure Series where
  t : List ℚ
  v : List ℚ
  deriving DecidableEq

/-- A label with no recorded points. -/
def emptySeries : Series := ⟨[], []⟩

/-- `self.data_history`, as a total function with the empty series as
default for labels never seen. -/
abbrev SessionHistory := String → Series

/-- Pointwise update of the history at one label. -/
def histUpdate (h : SessionHistory) (l : String) (s : Series) : SessionHistory :=
  fun x => if x = l then s else h x

/-- The recording loop of `_handle_sample`:
`for label, val in sample.items()` — the key "timestamp" is skipped, a
null reading appends nothing, a non-null reading appends
`(t_rel, val)` to that label's series. -/
def recordEntries (tRel : ℚ) : Sample → SessionHistory → SessionHistory
  | [], h => h
  | (label, val) :: rest, h =>
      if label = "timestamp" then recordEntries tRel rest h
      else
        match val with
        | none => recordEntries tRel rest h
        | some x =>
            recordEntries tRel rest
              (histUpdate h label ⟨(h label).t ++ [tRel], (h label).v ++ [x]⟩)

/-- `sample["timestamp"]`. In Python a missing or null timestamp raises
(KeyError / TypeError); the theorems only ever use this under the
hypothesis that the key is present and non-null, where the default is
irrelevant. -/
def sampleTimestamp (s : Sample) : ℚ := ((dictGet s "timestamp").join).getD 0

/-- Whether a Sample carries a (non-null) timestamp, as every Sample built
by `_poll_worker` from a non-"timestamp" parameter list does. -/
def hasTimestamp (s : Sample) : Bool := ((dictGet s "timestamp").join).isSome

/-- One durable row: the Sample's absolute timestamp plus one optional
field per fixed label (`none` is the empty CSV field). -/
abbrev CsvRow := ℚ × List Reading

/-- The mutable state of the pipeline owner (`OBDMainWindow`), restricted
to the non-UI fields the core touches. `threads` counts polling threads
ever spawned; `data_queue`/`log_queue` hold pending channel items in
arrival order. -/
structure AppState where
  connected : Bool
  polling : Bool
  threads : Nat
  session_start_time : Option ℚ
  data_history : SessionHistory
  data_queue : List Sample
  log_queue : List String
  log_to_csv : Bool
  csv_open : Bool
  csv_log_labels : List String
  csv_rows : List CsvRow

/-- `_close_csv`: closes the file handle (idempotently) and forgets the
writer and the fixed label order. -/
def close_csv (st : AppState) : AppState :=
  { st with csv_open := false, csv_log_labels := [] }

/-- `_handle_sample` (OBD2-V2.py, lines 367-396). `writeErr` is the
outcome of `csv_writer.writerow`: `some cause` when the write raises.
Steps: anchor the session on the first sample (`is None` check), append
non-null readings to the store, then, if the sink is open, either append
the row or log the failure once and close the sink. -/
def handle_sample (writeErr : Option String) (s : Sample) (st : AppState) : AppState :=
  let anchor :=
    match st.session_start_time with
    | none => sampleTimestamp s
    | some a => a
  let tRel := sampleTimestamp s - anchor
  let st1 := { st with
                session_start_time := some anchor,
                data_history := recordEntries tRel s st.data_history }
  if st1.csv_open then
    let row : CsvRow :=
      (sampleTimestamp s, st1.csv_log_labels.map fun lbl => (dictGet s lbl).join)
    match writeErr with
    | none => { st1 with csv_rows := st1.csv_rows ++ [row] }
    | some cause =>
        close_csv
          { st1 with log_queue := st1.log_queue ++ ["CSV write error: " ++ cause] }
  else st1

/-- Truthiness of the session anchor in OBD2.py's
`if not self.session_start_time:` — `None` and `0.0` are both falsy. -/
def truthyAnchor : Option ℚ → Bool
  | none => false
  | some a => decide (a ≠ 0)

/-- `_handle_sample` (OBD2.py, lines 248-278): identical to the V2 variant
except that the session anchor is (re)set whenever the stored anchor is
falsy, not only when it is `None`. -/
def handle_sample_v1 (writeErr : Option String) (s : Sample) (st : AppState) : AppState :=
  let anchor :=
    if truthyAnchor st.session_start_time then st.session_start_time.getD 0
    else sampleTimestamp s
  let tRel := sampleTimestamp s - anchor
  let st1 := { st with
                session_start_time := some anchor,
                data_history := recordEntries tRel s st.data_history }
  if st1.csv_open then
    let row : CsvRow :=
      (sampleTimestamp s, st1.csv_log_labels.map fun lbl => (dictGet s lbl).join)
    match writeErr with
    | none => { st1 with csv_rows := st1.csv_rows ++ [row] }
    | some cause =>
        close_csv
          { st1 with log_queue := st1.log_queue ++ ["CSV write error: " ++ cause] }
  else st1

/-- The state right after `__init__`: fresh Session Store, no sink, empty
channels, no polling thread. -/
def initState : AppState :=
  { connected := false
    polling := false
    threads := 0
    session_start_time := none
    data_history := fun _ => emptySeries
    data_queue := []
    log_queue := []
    log_to_csv := true
    csv_open := false
    csv_log_labels := []
    csv_rows := [] }

/-- Draining a list of Samples into the store in arrival order (the data
half of `_process_queues`), with every sink write succeeding. -/
def processSamples (samples : List Sample) (st : AppState) : AppState :=
  samples.foldl (fun st s => handle_sample none s st) st

/-- The OBD2.py variant of `processSamples`. -/
def processSamplesV1 (samples : List Sample) (st : AppState) : AppState :=
  samples.foldl (fun st s => handle_sample_v1 none s st) st

/-- The outcome of `connection.query(cmd)` for one parameter:
the call raises, or the response is null, or it carries a value whose
display text is `raw` and whose numeric coercion result is `num`
(`none` when both coercion attempts fail). -/
inductive QueryOutcome where
  | err (cause : String)
  | nullResp
  | value (raw : String) (num : Option ℚ)
  deriving DecidableEq

/-- The reading stored into the Sample for one outcome: `None` on a raised
query, `None` on a null response, the coerced number otherwise. -/
def readingOf : QueryOutcome → Reading
  | .err _ => none
  | .nullResp => none
  | .value _ num => num

/-- The `line_parts` fragment contributed by one parameter: `label=N/A`
for a null response, `label=<raw>` for a value, nothing when the query
raised. -/
def fragOf : String × QueryOutcome → Option String
  | (_, .err _) => none
  | (label, .nullResp) => some (label ++ "=N/A")
  | (label, .value raw _) => some (label ++ "=" ++ raw)

/-- The immediate log line contributed by one parameter: only a raised
query logs `Error querying <label>: <cause>`. -/
def errLineOf : String × QueryOutcome → Option String
  | (label, .err cause) => some ("Error querying " ++ label ++ ": " ++ cause)
  | (_, .nullResp) => none
  | (_, .value _ _) => none

/-- The accumulator of one acquisition tick: the Sample dict under
construction, the `line_parts` list, and the error lines already pushed
to the log channel. -/
structure TickResult where
  sample : Sample
  lineParts : List String
  errLines : List String
  deriving DecidableEq

/-- The body of `for label, cmd in zip(labels, commands)` in
`_poll_worker` for one parameter and its query outcome. -/
def queryStep (acc : TickResult) (p : String × QueryOutcome) : TickResult :=
  match p.2 with
  | .err cause =>
      { acc with
        errLines := acc.errLines ++ ["Error querying " ++ p.1 ++ ": " ++ cause]
        sample := dictInsert p.1 none acc.sample }
  | .nullResp =>
      { acc with
        sample := dictInsert p.1 none acc.sample
        lineParts := acc.lineParts ++ [p.1 ++ "=N/A"] }
  | .value raw num =>
      { acc with
        sample := dictInsert p.1 num acc.sample
        lineParts := acc.lineParts ++ [p.1 ++ "=" ++ raw] }

/-- One acquisition tick of `_poll_worker` (OBD2-V2.py, lines 534-560):
start from `{"timestamp": ts}` and fold the per-parameter loop over the
labels paired with their query outcomes. -/
def poll_tick (ts : ℚ) (queries : List (String × QueryOutcome)) : TickResult :=
  queries.foldl queryStep ⟨[("timestamp", some ts)], [], []⟩

/-- Everything one tick pushes onto the log channel, in push order: the
per-parameter error lines during the loop, then the single aggregated
pipe-joined line. -/
def tickLogPushes (r : TickResult) : List String :=
  r.errLines ++ [String.intercalate " | " r.lineParts]

/-- Everything one tick pushes onto the sample channel: the one Sample. -/
def tickDataPushes (r : TickResult) : List Sample :=
  [r.sample]

/-- `_open_new_csv` (OBD2-V2.py, lines 564-579): close any prior sink,
then try to create the new destination. On success the label order is
fixed, the header is written and the open is logged; on failure
(`openOk = false`) the failure is logged and the sink stays closed. -/
def open_new_csv (labels : List String) (openOk : Bool) (st : AppState) : AppState :=
  let st1 := close_csv st
  if openOk then
    { st1 with
      csv_open := true
      csv_log_labels := labels
      csv_rows := []
      log_queue := st1.log_queue ++ ["Logging to CSV"] }
  else
    close_csv { st1 with log_queue := st1.log_queue ++ ["Failed to open CSV file"] }

/-- The synchronous result of `start_polling`: each early `return` branch,
or a successful start. -/
inductive StartResult where
  | ok
  | notConnected
  | noLabels
  | badInterval
  | alreadyPolling
  deriving DecidableEq

/-- `start_polling` (OBD2-V2.py, lines 472-523). The guards run in source
order: connection, non-empty label selection, positive interval, not
already polling — each failing guard returns at once (the already-polling
guard also logs "Already polling."). The success path clears the sample
queue, the store and the anchor, opens or closes the sink according to
`log_to_csv`, sets the running flag, logs the start and spawns the
polling thread. `openOk` is the outcome of creating the CSV file. -/
def start_polling (labels : List String) (interval : ℚ) (openOk : Bool)
    (st : AppState) : StartResult × AppState :=
  if ¬ st.connected then (.notConnected, st)
  else if labels = [] then (.noLabels, st)
  else if interval ≤ 0 then (.badInterval, st)
  else if st.polling then
    (.alreadyPolling, { st with log_queue := st.log_queue ++ ["Already polling."] })
  else
    let st1 := { st with
                  data_queue := []
                  data_history := fun _ => emptySeries
                  session_start_time := none }
    let st2 := if st1.log_to_csv then open_new_csv labels openOk st1 else close_csv st1
    let st3 := { st2 with
                  polling := true
                  log_queue := st2.log_queue ++ ["Starting live data"]
                  threads := st2.threads + 1 }
    (.ok, st3)

/-- The windowed projection inside `refresh_plot` (OBD2-V2.py, lines
647-668), for one selected label: an empty series is skipped (nothing is
plotted), a positive window keeps the points with `t >= t_last - window`,
any other window keeps the full series. Returns the `(t, v)` parallel
lists handed to `ax.plot`. -/
def refreshSeries (tAll vAll : List ℚ) (window : ℚ) : List ℚ × List ℚ :=
  if tAll = [] ∨ vAll = [] then ([], [])
  else if 0 < window then
    let tLast := tAll.getLastD 0
    let t0 := tLast - window
    let filtered := (tAll.zip vAll).filter fun p => t0 ≤ p.1
    (filtered.map Prod.fst, filtered.map Prod.snd)
  else (tAll, vAll)

/-- Modelled from the spec's words (§4.5), for comparison with
`refreshSeries`: `project(series, window_seconds)` returns the full
series when `window_seconds <= 0`, returns empty on an empty series, and
otherwise keeps exactly the points with `time >= t_last - window_seconds`
where `t_last` is the last point's time. -/
def projectSpec (pts : List (ℚ × ℚ)) (window : ℚ) : List (ℚ × ℚ) :=
  if window ≤ 0 then pts
  else
    match pts.getLast? with
    | none => []
    | some pl => pts.filter fun p => pl.1 - window ≤ p.1

/-! ### Basic lemmas about the dict and history models -/

@[simp]
lemma histUpdate_self (h : SessionHistory) (l : String) (s : Series) :
    histUpdate h l s l = s := by
  simp [histUpdate]

lemma histUpdate_ne (h : SessionHistory) (l x : String) (s : Series) (hx : x ≠ l) :
    histUpdate h l s x = h x := by
  simp [histUpdate, hx]

@[simp]
lemma dictGet_nil (k : String) : dictGet [] k = none := rfl

@[simp]
lemma dictGet_cons (k' k : String) (v' : Reading) (rest : Sample) :
    dictGet ((k', v') :: rest) k = if k' = k then some v' else dictGet rest k := rfl

@[simp]
lemma dictKeys_nil : dictKeys [] = [] := rfl

@[simp]
lemma dictKeys_cons (k : String) (v : Reading) (rest : Sample) :
    dictKeys ((k, v) :: rest) = k :: dictKeys rest := rfl

lemma dictGet_dictInsert (k k' : String) (v : Reading) (s : Sample) :
    dictGet (dictInsert k v s) k' = if k = k' then some v else dictGet s k' := by
  induction s with
  | nil => simp [dictInsert]
  | cons p rest ih =>
      obtain ⟨k0, v0⟩ := p
      simp only [dictInsert]
      by_cases h0 : k0 = k
      · subst h0
        by_cases h1 : k0 = k' <;> simp [h1]
      · by_cases h1 : k0 = k' <;> by_cases h2 : k = k' <;> simp_all

lemma dictGet_eq_none_of_not_mem (s : Sample) (k : String) (hk : k ∉ dictKeys s) :
    dictGet s k = none := by
  induction s with
  | nil => rfl
  | cons p rest ih =>
      obtain ⟨k0, v0⟩ := p
      simp only [dictKeys_cons, List.mem_cons, not_or] at hk
      have h0 : ¬ k0 = k := fun hh => hk.1 hh.symm
      rw [dictGet_cons, if_neg h0]
      exact ih hk.2

lemma dictInsert_of_not_mem (s : Sample) (k : String) (v : Reading)
    (hk : k ∉ dictKeys s) :
    dictInsert k v s = s ++ [(k, v)] := by
  induction s with
  | nil => rfl
  | cons p rest ih =>
      obtain ⟨k0, v0⟩ := p
      simp only [dictKeys_cons, List.mem_cons, not_or] at hk
      have h0 : ¬ k0 = k := fun hh => hk.1 hh.symm
      simp only [dictInsert, if_neg h0, List.cons_append, List.cons.injEq, true_and]
      exact ih hk.2

lemma dictGet_get_of_nodup (s : Sample) (hnd : (dictKeys s).Nodup) :
    ∀ i (h : i < s.length), dictGet s (s.get ⟨i, h⟩).1 = some (s.get ⟨i, h⟩).2 := by
  induction s with
  | nil => intro i h; exact absurd h (Nat.not_lt_zero i)
  | cons p rest ih =>
      obtain ⟨k0, v0⟩ := p
      simp only [dictKeys_cons, List.nodup_cons] at hnd
      intro i h
      match i with
      | 0 => simp
      | Nat.succ j =>
          have hj : j < rest.length := Nat.lt_of_succ_lt_succ h
          have hkey : (rest.get ⟨j, hj⟩).1 ∈ dictKeys rest :=
            List.mem_map_of_mem Prod.fst (rest.get_mem j hj)
          have hne : ¬ k0 = (rest.get ⟨j, hj⟩).1 := by
            intro h0
            exact hnd.1 (by rw [h0]; exact hkey)
          show dictGet ((k0, v0) :: rest) (rest.get ⟨j, hj⟩).1
              = some (rest.get ⟨j, hj⟩).2
          rw [dictGet_cons, if_neg hne]
          exact ih hnd.2 j hj

/-! ### Lemmas about the recording loop -/

lemma recordEntries_nil (tRel : ℚ) (h : SessionHistory) :
    recordEntries tRel [] h = h := rfl

lemma recordEntries_cons_skip (tRel : ℚ) (v0 : Reading) (rest : Sample)
    (h : SessionHistory) :
    recordEntries tRel (("timestamp", v0) :: rest) h = recordEntries tRel rest h := by
  cases v0 <;> rfl

lemma recordEntries_cons_none (tRel : ℚ) (k0 : String) (rest : Sample)
    (h : SessionHistory) (hts : ¬ k0 = "timestamp") :
    recordEntries tRel ((k0, none) :: rest) h = recordEntries tRel rest h := by
  simp [recordEntries, hts]

lemma recordEntries_cons_some (tRel : ℚ) (k0 : String) (x : ℚ) (rest : Sample)
    (h : SessionHistory) (hts : ¬ k0 = "timestamp") :
    recordEntries tRel ((k0, some x) :: rest) h =
      recordEntries tRel rest
        (histUpdate h k0 ⟨(h k0).t ++ [tRel], (h k0).v ++ [x]⟩) := by
  simp [recordEntries, hts]

lemma recordEntries_apply_of_not_mem (tRel : ℚ) (entries : Sample)
    (h : SessionHistory) (l : String) (hl : l ∉ dictKeys entries) :
    recordEntries tRel entries h l = h l := by
  induction entries generalizing h with
  | nil => rfl
  | cons p rest ih =>
      obtain ⟨k0, v0⟩ := p
      simp only [dictKeys_cons, List.mem_cons, not_or] at hl
      by_cases hts : k0 = "timestamp"
      · subst hts
        rw [recordEntries_cons_skip]
        exact ih _ hl.2
      · match v0 with
        | none =>
            rw [recordEntries_cons_none _ _ _ _ hts]
            exact ih _ hl.2
        | some x =>
            rw [recordEntries_cons_some _ _ _ _ _ hts, ih _ hl.2]
            exact histUpdate_ne _ _ _ _ hl.1

lemma recordEntries_timestamp (tRel : ℚ) (entries : Sample) (h : SessionHistory) :
    recordEntries tRel entries h "timestamp" = h "timestamp" := by
  induction entries generalizing h with
  | nil => rfl
  | cons p rest ih =>
      obtain ⟨k0, v0⟩ := p
      by_cases hts : k0 = "timestamp"
      · subst hts
        rw [recordEntries_cons_skip]
        exact ih _
      · match v0 with
        | none =>
            rw [recordEntries_cons_none _ _ _ _ hts]
            exact ih _
        | some x =>
            rw [recordEntries_cons_some _ _ _ _ _ hts, ih _]
            exact histUpdate_ne _ _ _ _ (fun h0 => hts h0.symm)

lemma recordEntries_apply_of_some (tRel : ℚ) (entries : Sample)
    (h : SessionHistory) (l : String) (x : ℚ)
    (hl : ¬ l = "timestamp") (hnd : (dictKeys entries).Nodup)
    (hget : dictGet entries l = some (some x)) :
    recordEntries tRel entries h l = ⟨(h l).t ++ [tRel], (h l).v ++ [x]⟩ := by
  induction entries generalizing h with
  | nil => simp at hget
  | cons p rest ih =>
      obtain ⟨k0, v0⟩ := p
      simp only [dictKeys_cons, List.nodup_cons] at hnd
      by_cases hk : k0 = l
      · subst hk
        simp at hget
        subst hget
        rw [recordEntries_cons_some _ _ _ _ _ hl,
          recordEntries_apply_of_not_mem _ _ _ _ hnd.1, histUpdate_self]
      · rw [dictGet_cons, if_neg hk] at hget
        by_cases hts : k0 = "timestamp"
        · subst hts
          rw [recordEntries_cons_skip]
          exact ih _ hnd.2 hget
        · match v0 with
          | none =>
              rw [recordEntries_cons_none _ _ _ _ hts]
              exact ih _ hnd.2 hget
          | some y =>
              rw [recordEntries_cons_some _ _ _ _ _ hts, ih _ hnd.2 hget,
                histUpdate_ne _ _ _ _ (fun h0 => hk h0.symm)]

lemma recordEntries_apply_of_none (tRel : ℚ) (entries : Sample)
    (h : SessionHistory) (l : String)
    (hl : ¬ l = "timestamp") (hnd : (dictKeys entries).Nodup)
    (hget : (dictGet entries l).join = none) :
    recordEntries tRel entries h l = h l := by
  induction entries generalizing h with
  | nil => rfl
  | cons p rest ih =>
      obtain ⟨k0, v0⟩ := p
      simp only [dictKeys_cons, List.nodup_cons] at hnd
      by_cases hk : k0 = l
      · subst hk
        simp at hget
        subst hget
        rw [recordEntries_cons_none _ _ _ _ hl]
        exact recordEntries_apply_of_not_mem _ _ _ _ hnd.1
      · rw [dictGet_cons, if_neg hk] at hget
        by_cases hts : k0 = "timestamp"
        · subst hts
          rw [recordEntries_cons_skip]
          exact ih _ hnd.2 hget
        · match v0 with
          | none =>
              rw [recordEntries_cons_none _ _ _ _ hts]
              exact ih _ hnd.2 hget
          | some y =>
              rw [recordEntries_cons_some _ _ _ _ _ hts, ih _ hnd.2 hget,
                histUpdate_ne _ _ _ _ (fun h0 => hk h0.symm)]

/-! ### Lemmas about `handle_sample` -/

lemma handle_sample_data_history (w : Option String) (s : Sample) (st : AppState) :
    (handle_sample w s st).data_history
      = recordEntries (sampleTimestamp s - st.session_start_time.getD (sampleTimestamp s))
          s st.data_history := by
  cases hss : st.session_start_time <;> cases w <;>
    simp only [handle_sample, close_csv, hss, Option.getD_some, Option.getD_none] <;>
      split <;> rfl

lemma handle_sample_session_start (w : Option String) (s : Sample) (st : AppState) :
    (handle_sample w s st).session_start_time
      = some (st.session_start_time.getD (sampleTimestamp s)) := by
  cases hss : st.session_start_time <;> cases w <;>
    simp only [handle_sample, close_csv, hss, Option.getD_some, Option.getD_none] <;>
      split <;> rfl

/-! ### Lemmas about one acquisition tick -/

@[simp]
lemma dictKeys_append (a b : Sample) : dictKeys (a ++ b) = dictKeys a ++ dictKeys b :=
  List.map_append _ _ _

lemma foldl_queryStep_lineParts (qs : List (String × QueryOutcome)) :
    ∀ acc, (qs.foldl queryStep acc).lineParts = acc.lineParts ++ qs.filterMap fragOf := by
  induction qs with
  | nil => intro acc; simp
  | cons p rest ih =>
      intro acc
      obtain ⟨label, o⟩ := p
      cases o <;> simp [queryStep, fragOf, ih, List.filterMap_cons]

lemma foldl_queryStep_errLines (qs : List (String × QueryOutcome)) :
    ∀ acc, (qs.foldl queryStep acc).errLines = acc.errLines ++ qs.filterMap errLineOf := by
  induction qs with
  | nil => intro acc; simp
  | cons p rest ih =>
      intro acc
      obtain ⟨label, o⟩ := p
      cases o <;> simp [queryStep, errLineOf, ih, List.filterMap_cons]

lemma foldl_queryStep_sample (qs : List (String × QueryOutcome)) :
    ∀ acc, (qs.foldl queryStep acc).sample
      = qs.foldl (fun sm p => dictInsert p.1 (readingOf p.2) sm) acc.sample := by
  induction qs with
  | nil => intro acc; simp
  | cons p rest ih =>
      intro acc
      obtain ⟨label, o⟩ := p
      cases o <;> simp [queryStep, readingOf, ih]

lemma foldl_dictInsert_get_of_not_mem (qs : List (String × QueryOutcome))
    (k : String) (hk : k ∉ qs.map Prod.fst) :
    ∀ sm, dictGet (qs.foldl (fun sm p => dictInsert p.1 (readingOf p.2) sm) sm) k
      = dictGet sm k := by
  induction qs with
  | nil => intro sm; rfl
  | cons p rest ih =>
      intro sm
      simp only [List.map_cons, List.mem_cons, not_or] at hk
      simp only [List.foldl_cons]
      rw [ih hk.2, dictGet_dictInsert, if_neg (fun h0 => hk.1 h0.symm)]

lemma foldl_dictInsert_closed_form (qs : List (String × QueryOutcome))
    (hnd : (qs.map Prod.fst).Nodup) :
    ∀ sm, (∀ k ∈ qs.map Prod.fst, k ∉ dictKeys sm) →
      qs.foldl (fun sm p => dictInsert p.1 (readingOf p.2) sm) sm
        = sm ++ qs.map (fun p => (p.1, readingOf p.2)) := by
  induction qs with
  | nil => intro sm _; simp
  | cons p rest ih =>
      intro sm hdisj
      simp only [List.map_cons, List.nodup_cons] at hnd
      simp only [List.foldl_cons]
      rw [dictInsert_of_not_mem _ _ _ (hdisj p.1 (by simp))]
      rw [ih hnd.2]
      · simp
      · intro k hkmem
        simp only [dictKeys_append, dictKeys_cons, dictKeys_nil, List.mem_append,
          List.mem_cons, List.not_mem_nil, or_false, not_or]
        refine ⟨hdisj k (by simp [hkmem]), ?_⟩
        intro h0
        exact hnd.1 (h0 ▸ hkmem)

lemma poll_tick_lineParts (ts : ℚ) (qs : List (String × QueryOutcome)) :
    (poll_tick ts qs).lineParts = qs.filterMap fragOf := by
  simpa using foldl_queryStep_lineParts qs ⟨[("timestamp", some ts)], [], []⟩

lemma poll_tick_errLines (ts : ℚ) (qs : List (String × QueryOutcome)) :
    (poll_tick ts qs).errLines = qs.filterMap errLineOf := by
  simpa using foldl_queryStep_errLines qs ⟨[("timestamp", some ts)], [], []⟩

lemma poll_tick_sample (ts : ℚ) (qs : List (String × QueryOutcome))
    (hnd : (qs.map Prod.fst).Nodup) (hts : "timestamp" ∉ qs.map Prod.fst) :
    (poll_tick ts qs).sample
      = ("timestamp", some ts) :: qs.map (fun p => (p.1, readingOf p.2)) := by
  rw [poll_tick, foldl_queryStep_sample]
  rw [foldl_dictInsert_closed_form qs hnd [("timestamp", some ts)]]
  · rfl
  · intro k hkmem
    simp only [dictKeys_cons, dictKeys_nil, List.mem_singleton]
    intro h0
    exact hts (h0 ▸ hkmem)

/-! ### Lemmas about draining a whole sequence of Samples -/

lemma processSamples_cons (s : Sample) (rest : List Sample) (st : AppState) :
    processSamples (s :: rest) st = processSamples rest (handle_sample none s st) := rfl

lemma processSamples_history (l : String) (hl : ¬ l = "timestamp") :
    ∀ (samples : List Sample) (st : AppState),
      (∀ s ∈ samples, (dictKeys s).Nodup) →
      (((processSamples samples st).data_history l).v
          = ((st.data_history l).v) ++ samples.filterMap (fun s => (dictGet s l).join))
      ∧ (((processSamples samples st).data_history l).t.length
          = ((st.data_history l).t.length)
            + samples.countP (fun s => ((dictGet s l).join).isSome)) := by
  intro samples
  induction samples with
  | nil => intro st _; simp [processSamples]
  | cons s rest ih =>
      intro st hnd
      have hnds : (dictKeys s).Nodup := hnd s (by simp)
      have hndr : ∀ s2 ∈ rest, (dictKeys s2).Nodup := fun s2 h2 => hnd s2 (by simp [h2])
      rw [processSamples_cons]
      obtain ⟨ihv, iht⟩ := ih (handle_sample none s st) hndr
      rw [handle_sample_data_history] at ihv iht
      cases hj : (dictGet s l).join with
      | none =>
          rw [recordEntries_apply_of_none _ _ _ _ hl hnds hj] at ihv iht
          have hfm : List.filterMap (fun s2 => (dictGet s2 l).join) (s :: rest)
              = List.filterMap (fun s2 => (dictGet s2 l).join) rest := by
            rw [List.filterMap_cons]
            simp only [hj]
          have hcp : List.countP (fun s2 => ((dictGet s2 l).join).isSome) (s :: rest)
              = List.countP (fun s2 => ((dictGet s2 l).join).isSome) rest := by
            rw [List.countP_cons]
            simp only [hj, Option.isSome_none]
            rfl
          rw [hfm, hcp]
          exact ⟨ihv, iht⟩
      | some x =>
          have hg : dictGet s l = some (some x) := by
            cases hg0 : dictGet s l with
            | none => rw [hg0] at hj; simp at hj
            | some y =>
                rw [hg0] at hj
                cases y with
                | none => simp at hj
                | some z => simp at hj; rw [hj]
          rw [recordEntries_apply_of_some _ _ _ _ _ hl hnds hg] at ihv iht
          dsimp only at ihv iht
          have hfm : List.filterMap (fun s2 => (dictGet s2 l).join) (s :: rest)
              = x :: List.filterMap (fun s2 => (dictGet s2 l).join) rest := by
            rw [List.filterMap_cons]
            simp only [hj]
          have hcp : List.countP (fun s2 => ((dictGet s2 l).join).isSome) (s :: rest)
              = List.countP (fun s2 => ((dictGet s2 l).join).isSome) rest + 1 := by
            rw [List.countP_cons]
            simp only [hj, Option.isSome_some]
            rfl
          constructor
          · rw [ihv, hfm, List.append_assoc]
            rfl
          · rw [iht, hcp, List.length_append]
            simp only [List.length_singleton]
            omega

lemma processSamples_anchored (l : String) (a : ℚ) (hl : ¬ l = "timestamp") :
    ∀ (samples : List Sample) (st : AppState),
      st.session_start_time = some a →
      (∀ s ∈ samples, (dictKeys s).Nodup) →
      ((processSamples samples st).session_start_time = some a)
      ∧ (((processSamples samples st).data_history l).t
          = ((st.data_history l).t)
            ++ samples.filterMap
                (fun s => ((dictGet s l).join).map (fun _ => sampleTimestamp s - a))) := by
  intro samples
  induction samples with
  | nil => intro st hss _; simpa [processSamples] using hss
  | cons s rest ih =>
      intro st hss hnd
      have hnds : (dictKeys s).Nodup := hnd s (by simp)
      have hndr : ∀ s2 ∈ rest, (dictKeys s2).Nodup := fun s2 h2 => hnd s2 (by simp [h2])
      have hss' : (handle_sample none s st).session_start_time = some a := by
        rw [handle_sample_session_start, hss]
        rfl
      rw [processSamples_cons]
      obtain ⟨ihss, iht⟩ := ih (handle_sample none s st) hss' hndr
      refine ⟨ihss, ?_⟩
      rw [iht, handle_sample_data_history, hss]
      simp only [Option.getD_some]
      cases hj : (dictGet s l).join with
      | none =>
          rw [recordEntries_apply_of_none _ _ _ _ hl hnds hj]
          have hfm : List.filterMap
                (fun s2 => ((dictGet s2 l).join).map (fun _ => sampleTimestamp s2 - a))
                (s :: rest)
              = List.filterMap
                  (fun s2 => ((dictGet s2 l).join).map (fun _ => sampleTimestamp s2 - a))
                  rest := by
            rw [List.filterMap_cons]
            simp only [hj]
            rfl
          rw [hfm]
      | some x =>
          have hg : dictGet s l = some (some x) := by
            cases hg0 : dictGet s l with
            | none => rw [hg0] at hj; simp at hj
            | some y =>
                rw [hg0] at hj
                cases y with
                | none => simp at hj
                | some z => simp at hj; rw [hj]
          rw [recordEntries_apply_of_some _ _ _ _ _ hl hnds hg]
          dsimp only
          have hfm : List.filterMap
                (fun s2 => ((dictGet s2 l).join).map (fun _ => sampleTimestamp s2 - a))
                (s :: rest)
              = (sampleTimestamp s - a)
                  :: List.filterMap
                      (fun s2 => ((dictGet s2 l).join).map (fun _ => sampleTimestamp s2 - a))
                      rest := by
            rw [List.filterMap_cons]
            simp only [hj]
            rfl
          rw [hfm, List.append_assoc]
          rfl

/-! ### Claim theorems -/

/-- Claim C1: for every sequence of Samples recorded into a fresh Session
Store and every label, the label's series contains exactly the points
whose source reading was non-null — the recorded values are precisely the
non-null readings in arrival order, null readings append nothing, and the
series length equals the number of non-null readings seen for the label. -/
theorem C1_store_keeps_exactly_nonnull (samples : List Sample) (l : String)
    (hl : l ≠ "timestamp")
    (hnd : ∀ s ∈ samples, (dictKeys s).Nodup)
    (_hts : ∀ s ∈ samples, hasTimestamp s = true) :
    ((processSamples samples initState).data_history l).v
        = samples.filterMap (fun s => (dictGet s l).join)
    ∧ ((processSamples samples initState).data_history l).t.length
        = samples.countP (fun s => ((dictGet s l).join).isSome) := by
  obtain ⟨hv, ht⟩ := processSamples_history l hl samples initState hnd
  constructor
  · simpa [initState, emptySeries] using hv
  · simpa [initState, emptySeries] using ht

/-- The Samples of the C1 witness scenario: a non-null reading, a null
reading, and a Sample with no entry at all for the observed label. -/
def exSamplesC1 : List Sample :=
  [[("timestamp", some 10), ("Engine RPM", some 800)],
   [("timestamp", some 11), ("Engine RPM", none)],
   [("timestamp", some 12)]]

/-- Witness for C1 at a concrete run: only the one non-null reading is
recorded. -/
theorem C1_store_keeps_exactly_nonnull_witness :
    ("Engine RPM" ≠ "timestamp")
    ∧ (∀ s ∈ exSamplesC1, (dictKeys s).Nodup)
    ∧ (∀ s ∈ exSamplesC1, hasTimestamp s = true)
    ∧ (((processSamples exSamplesC1 initState).data_history "Engine RPM").v
          = exSamplesC1.filterMap (fun s => (dictGet s "Engine RPM").join)
        ∧ ((processSamples exSamplesC1 initState).data_history "Engine RPM").t.length
          = exSamplesC1.countP (fun s => ((dictGet s "Engine RPM").join).isSome)) :=
  ⟨by decide, by decide, by decide,
    C1_store_keeps_exactly_nonnull exSamplesC1 "Engine RPM"
      (by decide) (by decide) (by decide)⟩

/-- Claim C3, amended: in the V2 variant (`is None` anchor check) the
session anchor is taken from the first Sample's timestamp and never
reassigned, the first Sample's relative time is `0`, and every later
relative time is measured against that same anchor. (The OBD2.py variant
uses a falsiness check and can re-anchor a session whose anchor is `0`;
see the counterexample.) -/
theorem C3_anchor_set_once (s0 : Sample) (rest : List Sample) (l : String)
    (hl : l ≠ "timestamp")
    (hnd : ∀ s ∈ s0 :: rest, (dictKeys s).Nodup)
    (_hts : ∀ s ∈ s0 :: rest, hasTimestamp s = true) :
    (processSamples (s0 :: rest) initState).session_start_time
        = some (sampleTimestamp s0)
    ∧ ((processSamples (s0 :: rest) initState).data_history l).t
        = (s0 :: rest).filterMap
            (fun s => ((dictGet s l).join).map
              (fun _ => sampleTimestamp s - sampleTimestamp s0))
    ∧ (((dictGet s0 l).join).isSome = true →
        ((processSamples (s0 :: rest) initState).data_history l).t.head? = some 0) := by
  have hnds0 : (dictKeys s0).Nodup := hnd s0 (by simp)
  have hndr : ∀ s ∈ rest, (dictKeys s).Nodup := fun s h2 => hnd s (by simp [h2])
  have h1 : (handle_sample none s0 initState).session_start_time
      = some (sampleTimestamp s0) := by
    rw [handle_sample_session_start]
    rfl
  obtain ⟨ha, ht⟩ :=
    processSamples_anchored l (sampleTimestamp s0) hl rest
      (handle_sample none s0 initState) h1 hndr
  have hinit1 : initState.session_start_time = none := rfl
  have hinit2 : initState.data_history = fun _ => emptySeries := rfl
  have htform : ((processSamples (s0 :: rest) initState).data_history l).t
      = (s0 :: rest).filterMap
          (fun s => ((dictGet s l).join).map
            (fun _ => sampleTimestamp s - sampleTimestamp s0)) := by
    rw [processSamples_cons, ht, handle_sample_data_history, hinit1, hinit2]
    simp only [Option.getD_none]
    cases hj : (dictGet s0 l).join with
    | none =>
        rw [recordEntries_apply_of_none _ _ _ _ hl hnds0 hj]
        rw [List.filterMap_cons]
        simp only [hj]
        rfl
    | some x =>
        rw [recordEntries_apply_of_some _ _ _ _ _ hl hnds0 (by
          cases hg0 : dictGet s0 l with
          | none => rw [hg0] at hj; simp at hj
          | some y =>
              rw [hg0] at hj
              cases y with
              | none => simp at hj
              | some z => simp at hj; rw [hj])]
        rw [List.filterMap_cons]
        simp only [hj]
        rfl
  refine ⟨by rw [processSamples_cons]; exact ha, htform, ?_⟩
  intro hsome
  obtain ⟨x, hx⟩ := Option.isSome_iff_exists.mp hsome
  rw [htform, List.filterMap_cons]
  simp only [hx]
  simp [sub_self]

/-- The first Sample of the C3 witness run. -/
def exSampleC3first : Sample := [("timestamp", some 10), ("Engine RPM", some 800)]

/-- The later Samples of the C3 witness run. -/
def exSamplesC3rest : List Sample := [[("timestamp", some 11), ("Engine RPM", some 810)]]

/-- Witness for C3 at a concrete two-Sample run: the anchor is the first
Sample's timestamp and the first recorded relative time is `0`. -/
theorem C3_anchor_set_once_witness :
    (("Engine RPM" : String) ≠ "timestamp"
        ∧ (∀ s ∈ exSampleC3first :: exSamplesC3rest, (dictKeys s).Nodup)
        ∧ (∀ s ∈ exSampleC3first :: exSamplesC3rest, hasTimestamp s = true))
    ∧ ((processSamples (exSampleC3first :: exSamplesC3rest) initState).session_start_time
          = some (sampleTimestamp exSampleC3first)
        ∧ ((processSamples (exSampleC3first :: exSamplesC3rest) initState).data_history
              "Engine RPM").t
          = (exSampleC3first :: exSamplesC3rest).filterMap
              (fun s => ((dictGet s "Engine RPM").join).map
                (fun _ => sampleTimestamp s - sampleTimestamp exSampleC3first))
        ∧ (((dictGet exSampleC3first "Engine RPM").join).isSome = true →
            ((processSamples (exSampleC3first :: exSamplesC3rest) initState).data_history
                "Engine RPM").t.head? = some 0)) :=
  ⟨⟨by decide, by decide, by decide⟩,
    C3_anchor_set_once exSampleC3first exSamplesC3rest "Engine RPM"
      (by decide) (by decide) (by decide)⟩

/-- Counterexample to C3 as stated: in the OBD2.py variant the anchor is
guarded by a falsiness test, so a session whose first Sample is
timestamped `0` is re-anchored by the second Sample — the anchor is set
twice and no longer equals the first Sample's timestamp. -/
theorem C3_anchor_set_once_counterexample :
    (processSamplesV1
        [[("timestamp", some 0), ("Engine RPM", some 1)],
         [("timestamp", some 5), ("Engine RPM", some 2)]] initState).session_start_time
      ≠ some (sampleTimestamp [("timestamp", some 0), ("Engine RPM", some 1)]) := by
  decide

/-- Claim C10: the Sample carries timestamp and readings in one mapping
under the reserved key "timestamp" and recording skips that key — so a
parameter labeled "timestamp" has its reading overwrite the tick
timestamp in the Sample mapping, and no reading is ever appended to a
series stored under "timestamp". -/
theorem C10_reserved_timestamp_key :
    (∀ (w : Option String) (s : Sample) (st : AppState),
        (handle_sample w s st).data_history "timestamp"
          = st.data_history "timestamp")
    ∧ (∀ (ts : ℚ) (o : QueryOutcome),
        (poll_tick ts [("timestamp", o)]).sample = [("timestamp", readingOf o)]) := by
  constructor
  · intro w s st
    rw [handle_sample_data_history, recordEntries_timestamp]
  · intro ts o
    cases o <;> simp [poll_tick, queryStep, dictInsert, readingOf]

/-- Claim C2: the windowed projection of `refresh_plot` coincides with the
reference definition `projectSpec` for every series and window — full
series when the window is non-positive (identity law at `0`), otherwise
exactly the points with `time >= t_last - window`, and empty on an empty
series. -/
theorem C2_window_matches_reference (tAll vAll : List ℚ) (window : ℚ)
    (hlen : tAll.length = vAll.length) :
    refreshSeries tAll vAll window
      = ((projectSpec (tAll.zip vAll) window).map Prod.fst,
         (projectSpec (tAll.zip vAll) window).map Prod.snd)
    ∧ refreshSeries tAll vAll 0 = (tAll, vAll)
    ∧ refreshSeries [] [] window = ([], []) := by
  have hmain : refreshSeries tAll vAll window
      = ((projectSpec (tAll.zip vAll) window).map Prod.fst,
         (projectSpec (tAll.zip vAll) window).map Prod.snd) := by
    by_cases he : tAll = []
    · have hv : vAll = [] := by
        subst he
        exact List.length_eq_zero.mp hlen.symm
      subst he
      subst hv
      by_cases hw : window ≤ 0 <;> simp [refreshSeries, projectSpec, hw]
    · have hv : vAll ≠ [] := by
        intro h0
        subst h0
        exact he (List.length_eq_zero.mp hlen)
      have hcond : ¬ (tAll = [] ∨ vAll = []) := by simp [he, hv]
      by_cases hw : 0 < window
      · have hw' : ¬ window ≤ 0 := not_le.mpr hw
        have hzip : tAll.zip vAll ≠ [] := by
          intro h0
          have hlz := congrArg List.length h0
          rw [List.length_zip, hlen, min_self] at hlz
          simp at hlz
          exact hv hlz
        have hlast : tAll.getLastD 0 = ((tAll.zip vAll).getLast hzip).1 := by
          have h2 : tAll.getLast? = some (((tAll.zip vAll).getLast hzip).1) := by
            conv_lhs => rw [(List.map_fst_zip tAll vAll (le_of_eq hlen)).symm]
            rw [List.getLast?_map, List.getLast?_eq_getLast_of_ne_nil hzip]
            rfl
          rw [List.getLastD_eq_getLast?, h2]
          rfl
        simp only [refreshSeries, projectSpec, hcond, hw, hw', if_true, if_false,
          ite_true, ite_false, List.getLast?_eq_getLast_of_ne_nil hzip]
        rw [hlast]
      · have hw2 : window ≤ 0 := not_lt.mp hw
        simp only [refreshSeries, projectSpec, hcond, hw, hw2, if_true, if_false,
          ite_true, ite_false]
        rw [List.map_fst_zip tAll vAll (le_of_eq hlen),
          List.map_snd_zip tAll vAll (le_of_eq hlen.symm)]
  have hid : refreshSeries tAll vAll 0 = (tAll, vAll) := by
    by_cases he : tAll = []
    · have hv : vAll = [] := by
        subst he
        exact List.length_eq_zero.mp hlen.symm
      subst he
      subst hv
      simp [refreshSeries]
    · have hv : vAll ≠ [] := by
        intro h0
        subst h0
        exact he (List.length_eq_zero.mp hlen)
      have hcond : ¬ (tAll = [] ∨ vAll = []) := by simp [he, hv]
      simp [refreshSeries, hcond]
  exact ⟨hmain, hid, by simp [refreshSeries]⟩

/-- Witness for C2 at a concrete series and window: the projection of the
three-point series under window `2` keeps the last two points. -/
theorem C2_window_matches_reference_witness :
    (([(0 : ℚ), 3, 5]).length = ([(1 : ℚ), 2, 9]).length)
    ∧ (refreshSeries [(0 : ℚ), 3, 5] [(1 : ℚ), 2, 9] 2
          = ((projectSpec (([(0 : ℚ), 3, 5]).zip [(1 : ℚ), 2, 9]) 2).map Prod.fst,
             (projectSpec (([(0 : ℚ), 3, 5]).zip [(1 : ℚ), 2, 9]) 2).map Prod.snd)
        ∧ refreshSeries [(0 : ℚ), 3, 5] [(1 : ℚ), 2, 9] 0 = ([(0 : ℚ), 3, 5], [(1 : ℚ), 2, 9])
        ∧ refreshSeries [] [] 2 = ([], [])) :=
  ⟨by decide, C2_window_matches_reference [0, 3, 5] [1, 2, 9] 2 (by decide)⟩

/-- Counterexample to C4 as stated: when a parameter's query raises, the
tick pushes an aggregated line with no fragment for that parameter (here:
zero fragments for one parameter) and pushes two lines in total (the
error line plus the aggregated line), not exactly one line with one
fragment per parameter. -/
theorem C4_counterexample :
    (poll_tick 0 [("Engine RPM", QueryOutcome.err "no response")]).lineParts.length = 0
    ∧ ([("Engine RPM", QueryOutcome.err "no response")]).length = 1
    ∧ (tickLogPushes
        (poll_tick 0 [("Engine RPM", QueryOutcome.err "no response")])).length = 2 := by
  decide

/-- Claim C4, amended: on every acquisition tick the loop pushes exactly
one Sample, timestamped with the tick start time (provided no parameter
is labeled "timestamp"), and one aggregated pipe-joined log line whose
fragments are `label=value` for each parameter whose query did not raise,
in parameter order; a parameter whose query raised contributes no
fragment to that line but one separate error line, pushed before the
aggregated line. -/
theorem C4_tick_pushes (ts : ℚ) (qs : List (String × QueryOutcome))
    (hts : "timestamp" ∉ qs.map Prod.fst) :
    (tickDataPushes (poll_tick ts qs)).length = 1
    ∧ dictGet (poll_tick ts qs).sample "timestamp" = some (some ts)
    ∧ (poll_tick ts qs).lineParts = qs.filterMap fragOf
    ∧ tickLogPushes (poll_tick ts qs)
        = qs.filterMap errLineOf
            ++ [String.intercalate " | " (qs.filterMap fragOf)] := by
  refine ⟨rfl, ?_, poll_tick_lineParts ts qs, ?_⟩
  · rw [poll_tick, foldl_queryStep_sample, foldl_dictInsert_get_of_not_mem qs _ hts]
    rfl
  · rw [tickLogPushes, poll_tick_errLines, poll_tick_lineParts]

/-- Witness for C4 at a concrete tick: one good value, one raising query,
one null response. -/
theorem C4_tick_pushes_witness :
    ("timestamp" ∉
        ([("Engine RPM", QueryOutcome.value "800" (some 800)),
          ("Vehicle Speed", QueryOutcome.err "bus busy"),
          ("Coolant Temp", QueryOutcome.nullResp)]).map Prod.fst)
    ∧ ((tickDataPushes (poll_tick 7
          [("Engine RPM", QueryOutcome.value "800" (some 800)),
           ("Vehicle Speed", QueryOutcome.err "bus busy"),
           ("Coolant Temp", QueryOutcome.nullResp)])).length = 1
        ∧ dictGet (poll_tick 7
            [("Engine RPM", QueryOutcome.value "800" (some 800)),
             ("Vehicle Speed", QueryOutcome.err "bus busy"),
             ("Coolant Temp", QueryOutcome.nullResp)]).sample "timestamp" = some (some 7)
        ∧ (poll_tick 7
            [("Engine RPM", QueryOutcome.value "800" (some 800)),
             ("Vehicle Speed", QueryOutcome.err "bus busy"),
             ("Coolant Temp", QueryOutcome.nullResp)]).lineParts
          = ([("Engine RPM", QueryOutcome.value "800" (some 800)),
              ("Vehicle Speed", QueryOutcome.err "bus busy"),
              ("Coolant Temp", QueryOutcome.nullResp)]).filterMap fragOf
        ∧ tickLogPushes (poll_tick 7
            [("Engine RPM", QueryOutcome.value "800" (some 800)),
             ("Vehicle Speed", QueryOutcome.err "bus busy"),
             ("Coolant Temp", QueryOutcome.nullResp)])
          = ([("Engine RPM", QueryOutcome.value "800" (some 800)),
              ("Vehicle Speed", QueryOutcome.err "bus busy"),
              ("Coolant Temp", QueryOutcome.nullResp)]).filterMap errLineOf
              ++ [String.intercalate " | "
                  (([("Engine RPM", QueryOutcome.value "800" (some 800)),
                     ("Vehicle Speed", QueryOutcome.err "bus busy"),
                     ("Coolant Temp", QueryOutcome.nullResp)]).filterMap fragOf)]) :=
  ⟨by decide,
    C4_tick_pushes 7
      [("Engine RPM", QueryOutcome.value "800" (some 800)),
       ("Vehicle Speed", QueryOutcome.err "bus busy"),
       ("Coolant Temp", QueryOutcome.nullResp)] (by decide)⟩

/-- Claim C7: a raising query for one parameter logs
`Error querying <label>: <cause>`, stores `None` as that label's reading,
and never aborts the tick — every parameter, at every position, ends up
with the reading determined by its own outcome, and the error lines are
exactly those of the raising parameters, in order. -/
theorem C7_error_isolated (ts : ℚ) (qs : List (String × QueryOutcome))
    (hnd : (qs.map Prod.fst).Nodup) (hts : "timestamp" ∉ qs.map Prod.fst) :
    (poll_tick ts qs).sample
        = ("timestamp", some ts) :: qs.map (fun p => (p.1, readingOf p.2))
    ∧ (poll_tick ts qs).errLines = qs.filterMap errLineOf
    ∧ (∀ i (h : i < qs.length),
        dictGet (poll_tick ts qs).sample (qs.get ⟨i, h⟩).1
          = some (readingOf (qs.get ⟨i, h⟩).2))
    ∧ (∀ i (h : i < qs.length) (cause : String),
        (qs.get ⟨i, h⟩).2 = QueryOutcome.err cause →
          dictGet (poll_tick ts qs).sample (qs.get ⟨i, h⟩).1 = some none
          ∧ ("Error querying " ++ (qs.get ⟨i, h⟩).1 ++ ": " ++ cause)
              ∈ (poll_tick ts qs).errLines) := by
  have hsample := poll_tick_sample ts qs hnd hts
  have hget : ∀ i (h : i < qs.length),
      dictGet (poll_tick ts qs).sample (qs.get ⟨i, h⟩).1
        = some (readingOf (qs.get ⟨i, h⟩).2) := by
    intro i h
    rw [hsample]
    have hkey : (qs.get ⟨i, h⟩).1 ∈ qs.map Prod.fst :=
      List.mem_map_of_mem Prod.fst (qs.get_mem i h)
    have hne : ¬ "timestamp" = (qs.get ⟨i, h⟩).1 := by
      intro h0
      exact hts (h0 ▸ hkey)
    rw [dictGet_cons, if_neg hne]
    have hmapnd : (dictKeys (qs.map (fun p => (p.1, readingOf p.2)))).Nodup := by
      show ((qs.map (fun p => (p.1, readingOf p.2))).map Prod.fst).Nodup
      rw [List.map_map]
      exact hnd
    have hlen : i < (qs.map (fun p => (p.1, readingOf p.2))).length := by
      simpa using h
    have := dictGet_get_of_nodup (qs.map (fun p => (p.1, readingOf p.2))) hmapnd i hlen
    simpa using this
  refine ⟨hsample, poll_tick_errLines ts qs, hget, ?_⟩
  intro i h cause hcause
  refine ⟨?_, ?_⟩
  · have := hget i h
    rw [hcause] at this
    exact this
  · rw [poll_tick_errLines]
    have hmem : (qs.get ⟨i, h⟩) ∈ qs := qs.get_mem i h
    have hline : errLineOf (qs.get ⟨i, h⟩)
        = some ("Error querying " ++ (qs.get ⟨i, h⟩).1 ++ ": " ++ cause) := by
      have hpair : qs.get ⟨i, h⟩ = ((qs.get ⟨i, h⟩).1, QueryOutcome.err cause) := by
        rw [← hcause]
      rw [hpair]
      rfl
    exact List.mem_filterMap.mpr ⟨qs.get ⟨i, h⟩, hmem, hline⟩

/-- Witness for C7 at a concrete tick whose middle parameter raises. -/
theorem C7_error_isolated_witness :
    ((([("Engine RPM", QueryOutcome.value "800" (some 800)),
        ("Vehicle Speed", QueryOutcome.err "timeout"),
        ("Coolant Temp", QueryOutcome.value "90" (some 90))]).map Prod.fst).Nodup
      ∧ "timestamp" ∉
          ([("Engine RPM", QueryOutcome.value "800" (some 800)),
            ("Vehicle Speed", QueryOutcome.err "timeout"),
            ("Coolant Temp", QueryOutcome.value "90" (some 90))]).map Prod.fst)
    ∧ (poll_tick 3
        [("Engine RPM", QueryOutcome.value "800" (some 800)),
         ("Vehicle Speed", QueryOutcome.err "timeout"),
         ("Coolant Temp", QueryOutcome.value "90" (some 90))]).sample
      = ("timestamp", some 3)
          :: ([("Engine RPM", QueryOutcome.value "800" (some 800)),
               ("Vehicle Speed", QueryOutcome.err "timeout"),
               ("Coolant Temp", QueryOutcome.value "90" (some 90))]).map
              (fun p => (p.1, readingOf p.2)) :=
  ⟨⟨by decide, by decide⟩,
    (C7_error_isolated 3
      [("Engine RPM", QueryOutcome.value "800" (some 800)),
       ("Vehicle Speed", QueryOutcome.err "timeout"),
       ("Coolant Temp", QueryOutcome.value "90" (some 90))]
      (by decide) (by decide)).1⟩

/-- Claim C5: while the sink is open, every Sample produces exactly one
row whose fields follow the label order fixed at sink-open time — one
field per fixed label, each field being that label's reading (empty when
absent or null, never skipped), and a reading under a label outside the
fixed order is never written. -/
theorem C5_sink_fixed_row (st : AppState) (s : Sample) (hopen : st.csv_open = true) :
    (handle_sample none s st).csv_rows
        = st.csv_rows
          ++ [(sampleTimestamp s, st.csv_log_labels.map fun lbl => (dictGet s lbl).join)]
    ∧ (st.csv_log_labels.map fun lbl => (dictGet s lbl).join).length
        = st.csv_log_labels.length
    ∧ (∀ i : Nat, (st.csv_log_labels.map fun lbl => (dictGet s lbl).join)[i]?
        = (st.csv_log_labels[i]?).map (fun lbl => (dictGet s lbl).join))
    ∧ (∀ (lbl : String) (v : Reading), lbl ∉ st.csv_log_labels →
        (st.csv_log_labels.map fun lbl2 => (dictGet (dictInsert lbl v s) lbl2).join)
          = st.csv_log_labels.map fun lbl2 => (dictGet s lbl2).join) := by
  refine ⟨?_, List.length_map _ _, fun i => List.getElem?_map _ _ _, ?_⟩
  · simp [handle_sample, hopen]
  · intro lbl v hnotin
    apply List.map_congr_left
    intro lbl2 hmem
    have hne : ¬ lbl = lbl2 := by
      intro h0
      exact hnotin (by rw [h0]; exact hmem)
    rw [dictGet_dictInsert, if_neg hne]

/-- The sink state of the C5 witness: a freshly opened sink with two fixed
labels. -/
def exStateC5 : AppState :=
  { initState with csv_open := true, csv_log_labels := ["Engine RPM", "Vehicle Speed"] }

/-- The Sample of the C5 witness: a reading for the first label only. -/
def exSampleC5 : Sample := [("timestamp", some 100), ("Engine RPM", some 15)]

/-- Witness for C5 at a concrete open sink and Sample. -/
theorem C5_sink_fixed_row_witness :
    (exStateC5.csv_open = true)
    ∧ ((handle_sample none exSampleC5 exStateC5).csv_rows
          = exStateC5.csv_rows
            ++ [(sampleTimestamp exSampleC5,
                 exStateC5.csv_log_labels.map fun lbl => (dictGet exSampleC5 lbl).join)]
        ∧ (exStateC5.csv_log_labels.map fun lbl => (dictGet exSampleC5 lbl).join).length
          = exStateC5.csv_log_labels.length
        ∧ (∀ i : Nat,
            (exStateC5.csv_log_labels.map fun lbl => (dictGet exSampleC5 lbl).join)[i]?
              = (exStateC5.csv_log_labels[i]?).map
                  (fun lbl => (dictGet exSampleC5 lbl).join))
        ∧ (∀ (lbl : String) (v : Reading), lbl ∉ exStateC5.csv_log_labels →
            (exStateC5.csv_log_labels.map
                fun lbl2 => (dictGet (dictInsert lbl v exSampleC5) lbl2).join)
              = exStateC5.csv_log_labels.map
                  fun lbl2 => (dictGet exSampleC5 lbl2).join)) :=
  ⟨rfl, C5_sink_fixed_row exStateC5 exSampleC5 rfl⟩

/-- With a closed sink, `_handle_sample` writes no row and the sink stays
closed. -/
lemma handle_sample_closed (w : Option String) (s : Sample) (st : AppState)
    (hclosed : st.csv_open = false) :
    (handle_sample w s st).csv_open = false
    ∧ (handle_sample w s st).csv_rows = st.csv_rows := by
  cases w <;> simp [handle_sample, close_csv, hclosed]

/-- Claim C6: a failing sink write is logged exactly once and closes the
sink (no row is written, the fixed label order is dropped, later Samples
write nothing and the sink stays closed), while the Session Store update
of that Sample and of later Samples is exactly as if the write had
succeeded — the failure never propagates. -/
theorem C6_write_failure_degrades (st : AppState) (s : Sample) (cause : String)
    (hopen : st.csv_open = true) :
    (handle_sample (some cause) s st).csv_open = false
    ∧ (handle_sample (some cause) s st).csv_log_labels = []
    ∧ (handle_sample (some cause) s st).csv_rows = st.csv_rows
    ∧ (handle_sample (some cause) s st).log_queue
        = st.log_queue ++ ["CSV write error: " ++ cause]
    ∧ (handle_sample (some cause) s st).data_history
        = (handle_sample none s st).data_history
    ∧ (handle_sample (some cause) s st).session_start_time
        = (handle_sample none s st).session_start_time
    ∧ (∀ (w2 : Option String) (s2 : Sample),
        (handle_sample w2 s2 (handle_sample (some cause) s st)).csv_open = false
        ∧ (handle_sample w2 s2 (handle_sample (some cause) s st)).csv_rows
            = (handle_sample (some cause) s st).csv_rows) := by
  have hfopen : (handle_sample (some cause) s st).csv_open = false := by
    simp [handle_sample, close_csv, hopen]
  refine ⟨hfopen, ?_, ?_, ?_, ?_, ?_, ?_⟩
  · simp [handle_sample, close_csv, hopen]
  · simp [handle_sample, close_csv, hopen]
  · simp [handle_sample, close_csv, hopen]
  · rw [handle_sample_data_history, handle_sample_data_history]
  · rw [handle_sample_session_start, handle_sample_session_start]
  · intro w2 s2
    exact handle_sample_closed w2 s2 _ hfopen

/-- The sink state of the C6 witness. -/
def exStateC6 : AppState :=
  { initState with csv_open := true, csv_log_labels := ["Engine RPM"] }

/-- The Sample of the C6 witness. -/
def exSampleC6 : Sample := [("timestamp", some 4), ("Engine RPM", some 900)]

/-- Witness for C6 at a concrete open sink whose write raises. -/
theorem C6_write_failure_degrades_witness :
    (exStateC6.csv_open = true)
    ∧ ((handle_sample (some "disk full") exSampleC6 exStateC6).csv_open = false
        ∧ (handle_sample (some "disk full") exSampleC6 exStateC6).csv_log_labels = []
        ∧ (handle_sample (some "disk full") exSampleC6 exStateC6).csv_rows
            = exStateC6.csv_rows
        ∧ (handle_sample (some "disk full") exSampleC6 exStateC6).log_queue
            = exStateC6.log_queue ++ ["CSV write error: " ++ "disk full"]
        ∧ (handle_sample (some "disk full") exSampleC6 exStateC6).data_history
            = (handle_sample none exSampleC6 exStateC6).data_history
        ∧ (handle_sample (some "disk full") exSampleC6 exStateC6).session_start_time
            = (handle_sample none exSampleC6 exStateC6).session_start_time
        ∧ (∀ (w2 : Option String) (s2 : Sample),
            (handle_sample w2 s2
                (handle_sample (some "disk full") exSampleC6 exStateC6)).csv_open = false
            ∧ (handle_sample w2 s2
                (handle_sample (some "disk full") exSampleC6 exStateC6)).csv_rows
                = (handle_sample (some "disk full") exSampleC6 exStateC6).csv_rows)) :=
  ⟨rfl, C6_write_failure_degrades exStateC6 exSampleC6 "disk full" rfl⟩

/-- The controller state of the C8 scenario: connected and already
polling. -/
def exStateC8 : AppState := { initState with connected := true, polling := true }

/-- Counterexample to C8 as stated: in the V2 variant the AlreadyRunning
failure is not free of Event Bridge mutation — it appends the line
"Already polling." to the log channel, so the Event Bridge contents are
not exactly as before the call. -/
theorem C8_counterexample :
    (start_polling ["Engine RPM"] 1 true exStateC8).1 = StartResult.alreadyPolling
    ∧ (start_polling ["Engine RPM"] 1 true exStateC8).2.log_queue
        ≠ exStateC8.log_queue := by
  decide

/-- Claim C8, amended: `start_polling` fails fast and synchronously — with
the empty-labels or non-positive-interval failure the state is returned
entirely unchanged and no thread is spawned; with the already-polling
failure the Session Store, sample channel, Durable Sink, running flag and
thread count are unchanged and no thread is spawned, but (in the V2
variant) one "Already polling." line is appended to the log channel. -/
theorem C8_start_fails_fast (st : AppState) (labels : List String) (interval : ℚ)
    (openOk : Bool) (hc : st.connected = true) :
    (labels = [] → start_polling labels interval openOk st = (.noLabels, st))
    ∧ (labels ≠ [] → interval ≤ 0 →
        start_polling labels interval openOk st = (.badInterval, st))
    ∧ (labels ≠ [] → 0 < interval → st.polling = true →
        (start_polling labels interval openOk st).1 = .alreadyPolling
        ∧ (start_polling labels interval openOk st).2
            = { st with log_queue := st.log_queue ++ ["Already polling."] }) := by
  refine ⟨?_, ?_, ?_⟩
  · intro hl
    simp [start_polling, hc, hl]
  · intro hl hi
    simp [start_polling, hc, hl, hi]
  · intro hl hi hp
    have hi' : ¬ interval ≤ 0 := not_le.mpr hi
    constructor <;> simp [start_polling, hc, hl, hi', hp]

/-- Witness for C8: the already-polling failure at a concrete state leaves
everything but the log channel unchanged. -/
theorem C8_start_fails_fast_witness :
    (exStateC8.connected = true)
    ∧ ((start_polling ["Engine RPM"] 1 true exStateC8).1 = StartResult.alreadyPolling
        ∧ (start_polling ["Engine RPM"] 1 true exStateC8).2
            = { exStateC8 with
                  log_queue := exStateC8.log_queue ++ ["Already polling."] }) :=
  ⟨rfl,
    (C8_start_fails_fast exStateC8 ["Engine RPM"] 1 true rfl).2.2
      (by decide) (by decide) rfl⟩

/-- The controller state of the C9 scenario: connected, not polling, with
a pending log line and a pending Sample from a previous session. -/
def exStateC9 : AppState :=
  { initState with
      connected := true
      log_queue := ["stale line"]
      data_queue := [[("timestamp", some 1)]] }

/-- Counterexample to C9 as stated: a successful `start_polling` does not
clear the log channel — a line queued before the reset is still pending in
the new session. -/
theorem C9_counterexample :
    (start_polling ["Engine RPM"] 1 true exStateC9).1 = StartResult.ok
    ∧ "stale line" ∈ (start_polling ["Engine RPM"] 1 true exStateC9).2.log_queue := by
  decide

/-- Claim C9, amended: on a successful session start the Controller clears
the pending contents of the sample channel before the new loop is
spawned, but not of the log channel — the previous log contents survive
as a prefix, followed only by the lines logged by the start itself. -/
theorem C9_reset_clears_sample_channel_only (st : AppState) (labels : List String)
    (interval : ℚ) (openOk : Bool)
    (hc : st.connected = true) (hl : labels ≠ []) (hi : 0 < interval)
    (hp : st.polling = false) :
    (start_polling labels interval openOk st).1 = .ok
    ∧ (start_polling labels interval openOk st).2.data_queue = []
    ∧ (start_polling labels interval openOk st).2.log_queue
        = st.log_queue
          ++ (if st.log_to_csv then
                (if openOk then ["Logging to CSV"] else ["Failed to open CSV file"])
              else [])
          ++ ["Starting live data"] := by
  have hi' : ¬ interval ≤ 0 := not_le.mpr hi
  cases hcsv : st.log_to_csv <;> cases openOk <;>
    simp [start_polling, open_new_csv, close_csv, hc, hl, hi', hp, hcsv]

/-- Witness for C9 at a concrete state with pending items from a previous
session. -/
theorem C9_reset_clears_sample_channel_only_witness :
    (exStateC9.connected = true ∧ (["Engine RPM"] : List String) ≠ []
        ∧ (0 : ℚ) < 1 ∧ exStateC9.polling = false)
    ∧ ((start_polling ["Engine RPM"] 1 true exStateC9).1 = StartResult.ok
        ∧ (start_polling ["Engine RPM"] 1 true exStateC9).2.data_queue = []
        ∧ (start_polling ["Engine RPM"] 1 true exStateC9).2.log_queue
            = exStateC9.log_queue
              ++ (if exStateC9.log_to_csv then
                    (if true then ["Logging to CSV"] else ["Failed to open CSV file"])
                  else [])
              ++ ["Starting live data"]) :=
  ⟨⟨rfl, by decide, by decide, rfl⟩,
    C9_reset_clears_sample_channel_only exStateC9 ["Engine RPM"] 1 true
      rfl (by decide) (by decide) rfl⟩

end OBD2
